import Mathlib

/-!
# DocketChatbot — verification of the conversation/workflow core

Shallow embedding of the POD-verification chatbot (`src/src/App.tsx`,
server routes in `src/unnamed/part_000`).  The React component's state
(`messages`, `currentDocket`, `pendingPodImage`) becomes an explicit
`AppState`; the event handlers (`handleSend`, `handleFileUpload`,
`analyzePOD`, the header reset button) become pure functions from state
and an environment-outcome oracle to a new state plus the list of
external calls they issue.  String operations (`toLowerCase`,
`includes`, `trim`, the `/DKT-\d+/i` match) are embedded over `List
Char` following JavaScript semantics on the ASCII inputs the app uses.
-/

namespace DocketChatbot

/-- Test whether `p` is a prefix of `l` (character lists). -/
def startsWithChars : List Char → List Char → Bool
  | _, [] => true
  | [], _ :: _ => false
  | c :: cs, p :: ps => c = p && startsWithChars cs ps

/-- Test whether `pat` occurs as a contiguous substring of `l`.
Embeds JavaScript `String.prototype.includes`. -/
def hasSub (pat : List Char) : List Char → Bool
  | [] => pat.isEmpty
  | c :: cs => startsWithChars (c :: cs) pat || hasSub pat cs

/-- JavaScript `s.includes(pat)`. -/
def strContains (s pat : String) : Bool :=
  hasSub pat.data s.data

/-- JavaScript `toLowerCase` on the ASCII text the app handles:
characterwise lowering. -/
def lowerStr (s : String) : String :=
  String.mk (s.data.map Char.toLower)

/-- JavaScript `toUpperCase` on the ASCII text the app handles:
characterwise raising. -/
def upperStr (s : String) : String :=
  String.mk (s.data.map Char.toUpper)

/-- Strip leading and trailing whitespace from a character list. -/
def trimChars (l : List Char) : List Char :=
  ((l.dropWhile Char.isWhitespace).reverse.dropWhile Char.isWhitespace).reverse

/-- JavaScript `String.prototype.trim` on the app's inputs. -/
def jsTrim (s : String) : String :=
  String.mk (trimChars s.data)

/-- Maximal leading run of decimal digits, the greedy `\d+`. -/
def takeDigits : List Char → List Char
  | [] => []
  | c :: cs => if c.isDigit then c :: takeDigits cs else []

/-- Try to match the regex `DKT-\d+` (case-insensitive) at the head of
the list; returns the matched characters. -/
def matchDKTAt : List Char → Option (List Char)
  | c1 :: c2 :: c3 :: c4 :: rest =>
    if c1.toLower = 'd' && c2.toLower = 'k' && c3.toLower = 't' && c4 = '-' then
      match takeDigits rest with
      | [] => none
      | ds => some (c1 :: c2 :: c3 :: c4 :: ds)
    else none
  | _ => none

/-- Leftmost match of `/DKT-\d+/i`, as JavaScript `String.prototype.match`
returns it (first match only). -/
def findDKT : List Char → Option (List Char)
  | [] => none
  | c :: cs =>
    match matchDKTAt (c :: cs) with
    | some m => some m
    | none => findDKT cs

/-- Status tag of a chat message (`'loading' | 'success' | 'error'`). -/
inductive MsgStatus
  | loading
  | success
  | error
deriving DecidableEq, Repr

/-- The `Message` record of `App.tsx`. -/
structure Message where
  id : String
  role : String
  content : String
  image : Option String
  status : Option MsgStatus
deriving DecidableEq, Repr

/-- The `Docket` record of `App.tsx` (a row of the `dockets` table). -/
structure Docket where
  id : String
  customer_name : String
  delivery_address : String
  status : String
  pod_verified : Nat
  updated_at : String
deriving DecidableEq, Repr

/-- The component state owned by `App`: the message log and the two
session variables `currentDocket` / `pendingPodImage`.  Fresh message
ids are drawn from a counter (the source draws random ids; only
freshness matters). -/
structure AppState where
  messages : List Message
  currentDocket : Option Docket
  pendingPodImage : Option String
  nextId : Nat
deriving DecidableEq, Repr

/-- External calls the handlers issue, recorded for frame reasoning. -/
inductive ExtCall
  | storeGet (id : String)
  | storeUpdate (id : String) (status : String) (verified : Bool)
  | verifier (image : String)
  | assistant (utterance : String)
deriving DecidableEq, Repr

/-- Outcome of `fetch('/api/dockets/:id')` as seen by `fetchDocket`:
a 200 with a docket body, a 404 (`NotFound`), or a transport error
(the `catch` branch). -/
inductive FetchOutcome
  | found (d : Docket)
  | notFound
  | netError
deriving DecidableEq, Repr

/-- What `fetchDocket` returns: the docket on `res.ok`, `null` both on a
non-ok response and on a thrown error (`App.tsx` lines 75-88). -/
def fetchResult : FetchOutcome → Option Docket
  | .found d => some d
  | .notFound => none
  | .netError => none

/-- Outcome of the `POST /api/dockets/:id/update` call. -/
inductive UpdateOutcome
  | ok
  | notOk
  | netError
deriving DecidableEq, Repr

/-- What `updateDocketStatus` returns: `res.ok`, and `false` on a thrown
error (`App.tsx` lines 90-102). -/
def updateOk : UpdateOutcome → Bool
  | .ok => true
  | .notOk => false
  | .netError => false

/-- Outcome of one `genAI.models.generateContent` call.  `response t`
is a reply whose `.text` JavaScript-coerces to `t` (the empty string
covers both an empty and a missing text, which `||` treats alike);
`failure` is a thrown error. -/
inductive AIOutcome
  | response (text : String)
  | failure
deriving DecidableEq, Repr

/-- Environment oracle for one `handleSend` event: the outcomes the
external collaborators would return should the handler call them. -/
structure Env where
  fetch : FetchOutcome
  update : UpdateOutcome
  ai : AIOutcome
deriving Repr

/-- The `addMessage` helper (`App.tsx` lines 65-69): append a message under a
fresh id, returning the new state and the id. -/
def addMessage (st : AppState) (role content : String)
    (image : Option String) (status : Option MsgStatus) :
    AppState × String :=
  let id := toString st.nextId
  ({ st with
      messages := st.messages ++ [⟨id, role, content, image, status⟩],
      nextId := st.nextId + 1 }, id)

/-- The `updateMessageStatus` helper (`App.tsx` lines 71-73): rewrite the status
(and optionally the content) of every message whose id matches. -/
def updateMessageStatus (msgs : List Message) (id : String)
    (status : MsgStatus) (content : Option String) : List Message :=
  msgs.map fun m =>
    if m.id = id then
      { m with status := some status, content := content.getD m.content }
    else m

/-- Result of one event: the next state plus the external calls made. -/
structure StepOut where
  state : AppState
  calls : List ExtCall
deriving DecidableEq, Repr

/-- The closed intent grammar of `handleSend` (`App.tsx` lines
166-206): the "update" branch, then the `DKT-\d+` search branch, then
the free-form fallback, in that order. -/
inductive Intent
  | requestCommit
  | docketLookup (id : String)
  | freeform
deriving DecidableEq, Repr

/-- Intent classification, read off the branch structure of
`handleSend`: commit cue first, docket-shaped token second. -/
def classify (userMsg : String) : Intent :=
  if strContains (lowerStr userMsg) "update" || strContains (lowerStr userMsg) "please update" then
    .requestCommit
  else
    match findDKT userMsg.data with
    | some m => .docketLookup (upperStr (String.mk m))
    | none => .freeform

/-- Success message of the commit branch (`App.tsx` line 173). -/
def commitSuccessMsg (id : String) : String :=
  "Successfully updated docket **" ++ id ++ "** status to **Delivered**. POD has been verified and recorded."

/-- Found-docket message (`App.tsx` line 197). -/
def foundMsg (d : Docket) : String :=
  "Found Docket: **" ++ d.id ++ "**\n\n**Customer:** " ++ d.customer_name ++
    "\n**Address:** " ++ d.delivery_address ++ "\n**Status:** " ++ d.status ++
    "\n\nPlease upload the POD image for verification."

/-- Not-found message (`App.tsx` line 200). -/
def notFoundMsg (id : String) : String :=
  "Sorry, I couldn't find docket **" ++ id ++ "**. Try DKT-1001, DKT-1002, or DKT-1003."

/-- The `handleSend` handler (`App.tsx` lines 157-222) as a pure step function. -/
def handleSend (st : AppState) (input : String) (env : Env) : StepOut :=
  if jsTrim input = "" then ⟨st, []⟩
  else
    let userMsg := jsTrim input
    let st1 := (addMessage st "user" userMsg none none).1
    if strContains (lowerStr userMsg) "update" || strContains (lowerStr userMsg) "please update" then
      match st1.currentDocket, st1.pendingPodImage with
      | some d, some _ =>
        if updateOk env.update then
          let st2 := (addMessage st1 "assistant" (commitSuccessMsg d.id) none none).1
          ⟨{ st2 with pendingPodImage := none },
            [.storeUpdate d.id "Delivered" true]⟩
        else
          let st2 := (addMessage st1 "assistant" "Failed to update the docket. Please try again." none none).1
          ⟨st2, [.storeUpdate d.id "Delivered" true]⟩
      | none, _ =>
        ⟨(addMessage st1 "assistant" "Please provide a docket number first." none none).1, []⟩
      | some _, none =>
        ⟨(addMessage st1 "assistant" "I haven't verified a POD for this docket yet. Please upload the POD image first." none none).1, []⟩
    else
      match findDKT userMsg.data with
      | some m =>
        let docketId := upperStr (String.mk m)
        match fetchResult env.fetch with
        | some docket =>
          let st2 := { st1 with currentDocket := some docket }
          ⟨(addMessage st2 "assistant" (foundMsg docket) none none).1,
            [.storeGet docketId]⟩
        | none =>
          ⟨(addMessage st1 "assistant" (notFoundMsg docketId) none none).1,
            [.storeGet docketId]⟩
      | none =>
        match env.ai with
        | .response t =>
          let txt := if t = "" then "I'm not sure how to help with that." else t
          ⟨(addMessage st1 "assistant" txt none none).1, [.assistant userMsg]⟩
        | .failure =>
          ⟨(addMessage st1 "assistant" "I'm having trouble connecting right now." none none).1,
            [.assistant userMsg]⟩

/-- The `analyzePOD` sub-flow (`App.tsx` lines 104-155): create a loading message,
call the verifier, resolve the loading message, and on the acceptance
marker record the image as pending evidence. -/
def analyzePOD (st : AppState) (base64Image : String) (_docket : Docket)
    (outcome : AIOutcome) : StepOut :=
  let msgId := toString st.nextId
  let st1 := (addMessage st "assistant" "Analyzing POD image against docket details..." none (some .loading)).1
  match outcome with
  | .response t =>
    let responseText := if t = "" then "I couldn't analyze the image properly." else t
    let st2 := { st1 with
      messages := updateMessageStatus st1.messages msgId .success (some responseText) }
    let st3 :=
      if strContains (lowerStr responseText) "pod is good" then
        { st2 with pendingPodImage := some base64Image }
      else st2
    ⟨st3, [.verifier base64Image]⟩
  | .failure =>
    ⟨{ st1 with
        messages := updateMessageStatus st1.messages msgId .error
          (some "Sorry, I encountered an error while analyzing the POD. Please try again.") },
      [.verifier base64Image]⟩

/-- The `handleFileUpload` handler (`App.tsx` lines 224-240): no file is a no-op;
without an active docket, emit the search-first hint and skip analysis;
otherwise log the upload turn and run `analyzePOD`. -/
def handleFileUpload (st : AppState) (file : Option String)
    (outcome : AIOutcome) : StepOut :=
  match file with
  | none => ⟨st, []⟩
  | some base64 =>
    match st.currentDocket with
    | none =>
      ⟨(addMessage st "assistant" "Please search for a docket (e.g., DKT-1001) before uploading the POD." none none).1, []⟩
    | some d =>
      let st1 := (addMessage st "user" "Uploaded POD image" (some base64) none).1
      analyzePOD st1 base64 d outcome

/-- The header reset button (`App.tsx` lines 261-266): its
`onClick` runs exactly `setCurrentDocket(null)`. -/
def resetDocket (st : AppState) : AppState :=
  { st with currentDocket := none }

/-- One user event, with the environment outcomes it would observe. -/
inductive Event
  | send (input : String) (env : Env)
  | upload (file : Option String) (outcome : AIOutcome)
  | reset
deriving Repr

/-- One event's effect on the session state. -/
def step (st : AppState) : Event → AppState
  | .send input env => (handleSend st input env).state
  | .upload file outcome => (handleFileUpload st file outcome).state
  | .reset => resetDocket st

/-- The initial component state (`App.tsx` lines 44-54). -/
def initState : AppState :=
  { messages := [⟨"1", "assistant",
      "Hello! I'm your POD Verification Assistant. Please provide a **Docket Number** to get started, or upload a **POD image** directly if you have one ready.",
      none, none⟩],
    currentDocket := none,
    pendingPodImage := none,
    nextId := 2 }

/-- Run a finite sequence of user events from a state. -/
def runEvents (st : AppState) (evs : List Event) : AppState :=
  evs.foldl step st

/-! ## Concrete fixtures

Seed dockets from the server (`src/unnamed/part_000` lines 28-30) and
small concrete states, environments and traces used in closed
evaluations. -/

/-- Seed docket `DKT-1001` as the store would return it. -/
def d1001 : Docket :=
  ⟨"DKT-1001", "John Doe", "123 Maple St, Springfield", "Pending", 0, "t0"⟩

/-- Seed docket `DKT-1002` as the store would return it. -/
def d1002 : Docket :=
  ⟨"DKT-1002", "Jane Smith", "456 Oak Ave, Metropolis", "Pending", 0, "t0"⟩

/-- Environment in which the docket lookup succeeds with `d`. -/
def envFound (d : Docket) : Env :=
  ⟨.found d, .ok, .response ""⟩

/-- Environment in which the lookup answers 404 and updates succeed. -/
def envNotFound : Env :=
  ⟨.notFound, .ok, .failure⟩

/-- Environment in which the update call hits a transport error. -/
def envUpdFails : Env :=
  ⟨.notFound, .netError, .failure⟩

/-- A session in `EvidencePending`: active docket `DKT-1001` and an
accepted image awaiting commit. -/
def stPend : AppState :=
  { messages := [], currentDocket := some d1001,
    pendingPodImage := some "img", nextId := 2 }

/-- A session with an active docket and no pending evidence. -/
def stActive : AppState :=
  { initState with currentDocket := some d1001 }

/-- Event trace for the reset defect: look up `DKT-1001`, upload a POD
the verifier accepts, then press the header reset button. -/
def c1BugTrace : List Event :=
  [.send "DKT-1001" (envFound d1001),
   .upload (some "img") (.response "This POD is good. Signature found."),
   .reset]

/-- Event trace for the lookup defect: look up `DKT-1001`, upload a POD
the verifier accepts, then look up `DKT-1002`. -/
def c2BugTrace : List Event :=
  [.send "DKT-1001" (envFound d1001),
   .upload (some "img") (.response "This POD is good."),
   .send "DKT-1002" (envFound d1002)]

/-- First fixture message for the log-frame property. -/
def mW1 : Message := ⟨"1", "assistant", "hello", none, none⟩

/-- Second fixture message: a loading turn with id `"2"`. -/
def mW2 : Message := ⟨"2", "assistant", "working", none, some .loading⟩

/-- Fixture message log. -/
def msgsW : List Message := [mW1, mW2]

/-! ## Helper lemmas -/

/-- A list starts with itself, whatever follows. -/
theorem startsWithChars_append (p r : List Char) :
    startsWithChars (p ++ r) p = true := by
  induction p with
  | nil => cases r <;> rfl
  | cons c cs ih => simp [startsWithChars, ih]

/-- Substring containment is preserved by prepending characters. -/
theorem hasSub_append_left (pat l1 l2 : List Char) (h : hasSub pat l2 = true) :
    hasSub pat (l1 ++ l2) = true := by
  induction l1 with
  | nil => simpa using h
  | cons c cs ih =>
    simp only [List.cons_append, hasSub, Bool.or_eq_true]
    exact Or.inr ih

/-- A list contains any of its own prefixes placed at its head. -/
theorem hasSub_self_append (pat l2 : List Char) :
    hasSub pat (pat ++ l2) = true := by
  cases pat with
  | nil => cases l2 <;> simp [hasSub, startsWithChars]
  | cons p ps =>
    simp only [List.cons_append, hasSub, Bool.or_eq_true]
    exact Or.inl (startsWithChars_append (p :: ps) l2)

/-- The middle part `b` occurs in `a ++ b ++ c`. -/
theorem strContains_middle (a b c : String) :
    strContains (a ++ b ++ c) b = true := by
  unfold strContains
  rw [String.data_append, String.data_append, List.append_assoc]
  exact hasSub_append_left _ _ _ (hasSub_self_append _ _)

/-- Containment in the right part survives a left append. -/
theorem strContains_append_right (a b pat : String)
    (h : strContains b pat = true) : strContains (a ++ b) pat = true := by
  unfold strContains at h ⊢
  rw [String.data_append]
  exact hasSub_append_left _ _ _ h

/-- A `RequestCommit` classification means the commit cue fired. -/
theorem classify_requestCommit {s : String}
    (h : classify s = Intent.requestCommit) :
    (strContains (lowerStr s) "update" || strContains (lowerStr s) "please update") = true := by
  cases hb : (strContains (lowerStr s) "update" || strContains (lowerStr s) "please update") with
  | true => rfl
  | false =>
    exfalso
    unfold classify at h
    rw [hb] at h
    simp only [Bool.false_eq_true, if_false] at h
    cases hm : findDKT s.data <;> rw [hm] at h <;> simp at h

/-- A `DocketLookup` classification means the commit cue did not fire
and the docket regex matched, the id being the uppercased match. -/
theorem classify_docketLookup {s id : String}
    (h : classify s = Intent.docketLookup id) :
    (strContains (lowerStr s) "update" || strContains (lowerStr s) "please update") = false ∧
    ∃ m, findDKT s.data = some m ∧ id = upperStr (String.mk m) := by
  cases hb : (strContains (lowerStr s) "update" || strContains (lowerStr s) "please update") with
  | true =>
    exfalso
    unfold classify at h
    rw [hb] at h
    simp at h
  | false =>
    refine ⟨rfl, ?_⟩
    unfold classify at h
    rw [hb] at h
    simp only [Bool.false_eq_true, if_false] at h
    cases hm : findDKT s.data with
    | none => rw [hm] at h; simp at h
    | some m =>
      rw [hm] at h
      simp only [Intent.docketLookup.injEq] at h
      exact ⟨m, rfl, h.symm⟩

/-! ## Claim theorems -/

/-- C1: the claimed reachable-state invariant "`active_docket` empty
implies `pending_evidence` empty" fails on the code: after looking up
`DKT-1001`, having a POD accepted, and pressing the header reset
button — a reachable three-event trace — `currentDocket` is `none`
while `pendingPodImage` still holds the image, because the reset
handler runs only `setCurrentDocket(null)` and never touches
`pendingPodImage`. -/
theorem c1_reset_leaves_pending_evidence :
    (runEvents initState c1BugTrace).currentDocket = none ∧
    (runEvents initState c1BugTrace).pendingPodImage = some "img" := by
  decide

/-- C2: the claim that a successful docket lookup clears pending
evidence fails on the code: from an `EvidencePending` session on
`DKT-1001`, looking up `DKT-1002` switches `currentDocket` to the new
docket yet `pendingPodImage` still holds the image accepted for
`DKT-1001`, because neither `fetchDocket` nor the search branch of
`handleSend` clears it. -/
theorem c2_lookup_leaves_pending_evidence :
    (runEvents initState c2BugTrace).currentDocket = some d1002 ∧
    (runEvents initState c2BugTrace).pendingPodImage = some "img" := by
  decide

/-- C4: any utterance containing a case-insensitive "update" cue and a
`DKT-\d+` token classifies as `RequestCommit` and never as
`DocketLookup`: the commit branch of `handleSend` is tested before the
docket-search branch. -/
theorem c4_commit_precedence (s : String)
    (hu : strContains (lowerStr s) "update" = true)
    (_hd : (findDKT s.data).isSome = true) :
    classify s = Intent.requestCommit ∧
    ∀ id, classify s ≠ Intent.docketLookup id := by
  have hc : classify s = Intent.requestCommit := by
    unfold classify
    rw [hu]
    rfl
  exact ⟨hc, fun id h => by rw [hc] at h; exact absurd h (by simp)⟩

/-- C4 witness: "update DKT-1001" carries both cues and classifies as
`RequestCommit`. -/
theorem c4_commit_precedence_witness :
    classify "update DKT-1001" = Intent.requestCommit :=
  (c4_commit_precedence "update DKT-1001" (by decide) (by decide)).1

/-- C9: `updateMessageStatus` is a per-identity update of the log: the
length is preserved, every message at a position whose id differs from
the target id is kept verbatim (role, content, image and status), and
even at matching positions only status and content change — id, role
and image are preserved. -/
theorem c9_update_targets_only_matching_id (msgs : List Message)
    (id : String) (s : MsgStatus) (c : Option String) :
    (updateMessageStatus msgs id s c).length = msgs.length ∧
    (∀ (i : Nat) (m : Message), msgs[i]? = some m → m.id ≠ id →
      (updateMessageStatus msgs id s c)[i]? = some m) ∧
    (∀ (i : Nat) (m : Message), msgs[i]? = some m → ∃ m2,
      (updateMessageStatus msgs id s c)[i]? = some m2 ∧
      m2.id = m.id ∧ m2.role = m.role ∧ m2.image = m.image) := by
  refine ⟨by simp [updateMessageStatus], ?_, ?_⟩
  · intro i m hm hne
    simp [updateMessageStatus, List.getElem?_map, hm, hne]
  · intro i m hm
    refine ⟨if m.id = id then
        { m with status := some s, content := c.getD m.content } else m,
      ?_, ?_, ?_, ?_⟩
    · simp [updateMessageStatus, List.getElem?_map, hm]
    · split <;> rfl
    · split <;> rfl
    · split <;> rfl

/-- C9 witness: resolving the loading message with id "2" leaves the
unrelated message with id "1" untouched at its position. -/
theorem c9_update_witness :
    (updateMessageStatus msgsW "2" MsgStatus.success (some "done"))[0]? = some mW1 :=
  (c9_update_targets_only_matching_id msgsW "2" MsgStatus.success (some "done")).2.1
    0 mW1 rfl (by decide)

/-- C10: a submit whose text is empty or all whitespace is a no-op:
`handleSend` returns the state unchanged (no message appended, docket
and pending evidence untouched) and issues no external call. -/
theorem c10_blank_input_noop (st : AppState) (input : String) (env : Env)
    (h : ∀ c ∈ input.data, c.isWhitespace = true) :
    handleSend st input env = ⟨st, []⟩ := by
  have htrim : jsTrim input = "" := by
    unfold jsTrim trimChars
    rw [List.dropWhile_eq_nil_iff.mpr h]
    rfl
  unfold handleSend
  rw [if_pos htrim]

/-- C10 witness: a three-space input leaves the initial state and call
log unchanged. -/
theorem c10_blank_input_noop_witness :
    handleSend initState "   " envNotFound = ⟨initState, []⟩ :=
  c10_blank_input_noop initState "   " envNotFound (by decide)

/-- C5: an `analyzePOD` run whose verifier responds with usable text
`t` resolves the loading message (the one created by this run, last in
the log) to `success` with `t` as content, and records the submitted
image as pending evidence exactly when `lowercase(t)` contains
"pod is good" — otherwise pending evidence is left as it was; the
active docket is untouched either way. -/
theorem c5_verdict_marker (st : AppState) (img : String) (d : Docket)
    (t : String) (ht : t ≠ "") :
    (analyzePOD st img d (AIOutcome.response t)).state.messages.getLast? =
      some ⟨toString st.nextId, "assistant", t, none, some MsgStatus.success⟩ ∧
    (analyzePOD st img d (AIOutcome.response t)).state.pendingPodImage =
      (if strContains (lowerStr t) "pod is good" then some img
       else st.pendingPodImage) ∧
    (analyzePOD st img d (AIOutcome.response t)).state.currentDocket =
      st.currentDocket := by
  unfold analyzePOD addMessage
  simp only [if_neg ht]
  refine ⟨?_, ?_, ?_⟩
  · by_cases hm : strContains (lowerStr t) "pod is good" = true <;>
      simp [hm, updateMessageStatus, List.map_append]
  · by_cases hm : strContains (lowerStr t) "pod is good" = true <;>
      simp [hm]
  · by_cases hm : strContains (lowerStr t) "pod is good" = true <;>
      simp [hm]

/-- C5 witness: with verdict "This POD is good", the loading message
resolves to success carrying the verdict text. -/
theorem c5_verdict_marker_witness :
    (analyzePOD initState "img" d1001 (AIOutcome.response "This POD is good")).state.messages.getLast? =
      some ⟨"2", "assistant", "This POD is good", none, some MsgStatus.success⟩ :=
  (c5_verdict_marker initState "img" d1001 "This POD is good" (by decide)).1

/-- C6 counterexample: the claim says a verifier response with no
usable text resolves the loading message to `error` with the apology
string, but the code resolves it to `success` with the fallback text
"I couldn't analyze the image properly." — shown here on a concrete
run with an empty verdict. -/
theorem c6_empty_verdict_resolves_success :
    (analyzePOD stActive "img" d1001 (AIOutcome.response "")).state.messages.getLast? =
      some ⟨"2", "assistant", "I couldn't analyze the image properly.", none, some MsgStatus.success⟩ ∧
    ¬ (analyzePOD stActive "img" d1001 (AIOutcome.response "")).state.messages.getLast? =
      some ⟨"2", "assistant", "Sorry, I encountered an error while analyzing the POD. Please try again.", none, some MsgStatus.error⟩ := by
  decide

/-- C6 (amended): if the verifier call throws, the loading message is
resolved to `error` with the fixed apology string; if it returns with
no usable text, the loading message is resolved to `success` with the
fixed fallback string; in both cases `currentDocket` and
`pendingPodImage` are unchanged, and `analyzePOD` is a total function
of the outcome — no exception escapes it. -/
theorem c6_unusable_verdict_semantics (st : AppState) (img : String)
    (d : Docket) :
    ((analyzePOD st img d AIOutcome.failure).state.messages.getLast? =
        some ⟨toString st.nextId, "assistant", "Sorry, I encountered an error while analyzing the POD. Please try again.", none, some MsgStatus.error⟩ ∧
      (analyzePOD st img d AIOutcome.failure).state.currentDocket = st.currentDocket ∧
      (analyzePOD st img d AIOutcome.failure).state.pendingPodImage = st.pendingPodImage) ∧
    ((analyzePOD st img d (AIOutcome.response "")).state.messages.getLast? =
        some ⟨toString st.nextId, "assistant", "I couldn't analyze the image properly.", none, some MsgStatus.success⟩ ∧
      (analyzePOD st img d (AIOutcome.response "")).state.currentDocket = st.currentDocket ∧
      (analyzePOD st img d (AIOutcome.response "")).state.pendingPodImage = st.pendingPodImage) := by
  constructor
  · unfold analyzePOD addMessage
    refine ⟨?_, rfl, rfl⟩
    simp [updateMessageStatus, List.map_append]
  · unfold analyzePOD addMessage
    have hmk : strContains (lowerStr "I couldn't analyze the image properly.") "pod is good" = false := by
      decide
    refine ⟨?_, ?_, ?_⟩ <;>
      simp [hmk, updateMessageStatus, List.map_append]

/-- C3: committing from `EvidencePending` (active docket `d`, pending
image) on a `RequestCommit` whose store update succeeds issues exactly
`update(d.id, Delivered, verified=true)`, leaves the active docket
equal to `d`, clears the pending evidence, and appends a success
message whose content names `d.id`. -/
theorem c3_commit_success (st : AppState) (input : String) (env : Env)
    (d : Docket) (img : String)
    (hd : st.currentDocket = some d) (hp : st.pendingPodImage = some img)
    (hc : classify (jsTrim input) = Intent.requestCommit)
    (hu : env.update = UpdateOutcome.ok) :
    (handleSend st input env).calls = [ExtCall.storeUpdate d.id "Delivered" true] ∧
    (handleSend st input env).state.currentDocket = some d ∧
    (handleSend st input env).state.pendingPodImage = none ∧
    (handleSend st input env).state.messages.getLast? =
      some ⟨toString (st.nextId + 1), "assistant", commitSuccessMsg d.id, none, none⟩ ∧
    strContains (commitSuccessMsg d.id) d.id = true := by
  have hne : jsTrim input ≠ "" := by
    intro he
    rw [he] at hc
    exact absurd hc (by decide)
  have hcond := classify_requestCommit hc
  refine ⟨?_, ?_, ?_, ?_, ?_⟩
  · simp [handleSend, addMessage, hne, hcond, hd, hp, hu, updateOk]
  · simp [handleSend, addMessage, hne, hcond, hd, hp, hu, updateOk]
  · simp [handleSend, addMessage, hne, hcond, hd, hp, hu, updateOk]
  · simp [handleSend, addMessage, hne, hcond, hd, hp, hu, updateOk]
  · unfold commitSuccessMsg
    exact strContains_middle _ _ _

/-- C3 witness: from a concrete `EvidencePending` session on
`DKT-1001`, "please update" with a succeeding store issues the
`Delivered`/verified update call. -/
theorem c3_commit_success_witness :
    (handleSend stPend "please update" envNotFound).calls =
      [ExtCall.storeUpdate "DKT-1001" "Delivered" true] :=
  (c3_commit_success stPend "please update" envNotFound d1001 "img"
    rfl rfl (by decide) rfl).1

/-- C7: committing from `EvidencePending` when the store update fails
(non-ok response or transport error, i.e. `updateDocketStatus` returns
false) appends the retry message and leaves both the active docket and
the pending evidence exactly as they were: the commit is atomic with
respect to session state. -/
theorem c7_commit_failure_atomic (st : AppState) (input : String)
    (env : Env) (d : Docket) (img : String)
    (hd : st.currentDocket = some d) (hp : st.pendingPodImage = some img)
    (hc : classify (jsTrim input) = Intent.requestCommit)
    (hu : updateOk env.update = false) :
    (handleSend st input env).state.currentDocket = some d ∧
    (handleSend st input env).state.pendingPodImage = some img ∧
    (handleSend st input env).state.messages.getLast? =
      some ⟨toString (st.nextId + 1), "assistant", "Failed to update the docket. Please try again.", none, none⟩ := by
  have hne : jsTrim input ≠ "" := by
    intro he
    rw [he] at hc
    exact absurd hc (by decide)
  have hcond := classify_requestCommit hc
  refine ⟨?_, ?_, ?_⟩ <;>
    simp [handleSend, addMessage, hne, hcond, hd, hp, hu]

/-- C7 witness: with a transport error on the update call, the
concrete `EvidencePending` session on `DKT-1001` keeps its pending
image. -/
theorem c7_commit_failure_atomic_witness :
    (handleSend stPend "update" envUpdFails).state.pendingPodImage = some "img" :=
  (c7_commit_failure_atomic stPend "update" envUpdFails d1001 "img"
    rfl rfl (by decide) rfl).2.1

/-- C8: a `DocketLookup(id)` whose store lookup does not return a
docket — a 404 or a transport error alike — appends the not-found
message, which lists the three seeded sample ids, and leaves both the
active docket and the pending evidence unchanged. -/
theorem c8_lookup_not_found_frame (st : AppState) (input : String)
    (env : Env) (id : String)
    (hc : classify (jsTrim input) = Intent.docketLookup id)
    (hf : env.fetch = FetchOutcome.notFound ∨ env.fetch = FetchOutcome.netError) :
    (handleSend st input env).state.currentDocket = st.currentDocket ∧
    (handleSend st input env).state.pendingPodImage = st.pendingPodImage ∧
    (handleSend st input env).state.messages.getLast? =
      some ⟨toString (st.nextId + 1), "assistant", notFoundMsg id, none, none⟩ ∧
    strContains (notFoundMsg id) "DKT-1001" = true ∧
    strContains (notFoundMsg id) "DKT-1002" = true ∧
    strContains (notFoundMsg id) "DKT-1003" = true := by
  have hne : jsTrim input ≠ "" := by
    intro he
    rw [he] at hc
    have h0 : classify "" = Intent.freeform := by decide
    rw [h0] at hc
    exact absurd hc (by simp)
  obtain ⟨hcond, m, hm, hid⟩ := classify_docketLookup hc
  subst hid
  have hfr : fetchResult env.fetch = none := by
    rcases hf with h | h <;> rw [h] <;> rfl
  refine ⟨?_, ?_, ?_, ?_, ?_, ?_⟩
  · simp [handleSend, addMessage, hne, hcond, hm, hfr]
  · simp [handleSend, addMessage, hne, hcond, hm, hfr]
  · simp [handleSend, addMessage, hne, hcond, hm, hfr]
  · unfold notFoundMsg
    exact strContains_append_right _ _ _ (by decide)
  · unfold notFoundMsg
    exact strContains_append_right _ _ _ (by decide)
  · unfold notFoundMsg
    exact strContains_append_right _ _ _ (by decide)

/-- C8 witness: looking up the unseeded "DKT-9999" against a store
answering 404 leaves the initial session's active docket unchanged. -/
theorem c8_lookup_not_found_frame_witness :
    (handleSend initState "DKT-9999" envNotFound).state.currentDocket =
      initState.currentDocket :=
  (c8_lookup_not_found_frame initState "DKT-9999" envNotFound "DKT-9999"
    (by decide) (Or.inl rfl)).1

end DocketChatbot
